import Mathlib

/-!
Shallow embedding of the ACRN device-model virtio entropy device
(`hw/pci/virtio/virtio_rnd.c`) and proofs about its backend-selection
state machine, kernel-offload handshake, virtqueue drain loop, and
attach/detach paths.

C strings are modelled as `List Char`; machine integers as `Nat`/`Int`
(only signs and small constants matter here); fallible paths and
`assert` aborts as `Option`.  External collaborators (the generic
virtio transport, the `/dev/vbs_rng` control channel, `/dev/random`)
are modelled as oracle parameters: their return values are inputs, and
any state they keep is out of scope except where the spec pins it down.
-/

set_option maxHeartbeats 1000000

namespace VirtioRnd

/-- Session status of the kernel-offload (VBS-K) side, mirroring
`enum VBS_K_STATUS` used by the source. -/
inductive VBS_K_STATUS where
  | VIRTIO_DEV_INITIAL
  | VIRTIO_DEV_PRE_INIT
  | VIRTIO_DEV_INIT_SUCCESS
  | VIRTIO_DEV_INIT_FAILED
  | VIRTIO_DEV_STARTED
  | VIRTIO_DEV_START_FAILED
deriving DecidableEq, Repr

open VBS_K_STATUS

/-- Ring size of the single virtqueue (`VIRTIO_RND_RINGSZ`). -/
def VIRTIO_RND_RINGSZ : Nat := 64

/-- Virtio status-register DRIVER_OK bit (`VIRTIO_CR_STATUS_DRIVER_OK`). -/
def VIRTIO_CR_STATUS_DRIVER_OK : Nat := 4

/-- Sentinel `VIRTIO_MSI_NO_VECTOR` for an unassigned MSI-X vector. -/
def VIRTIO_MSI_NO_VECTOR : Nat := 0xffff

/-- Name-field bound of `struct vbs_dev_info` (external header constant;
only its existence matters to the claims, not its value). -/
def VBS_NAME_LEN : Nat := 32

/-- Positive magnitude of `-VIRTIO_ERROR_GENERAL` (external header
constant; only the sign of the returned code matters). -/
def VIRTIO_ERROR_GENERAL : Int := 1

/-- Positive magnitude of `-VIRTIO_ERROR_FD_OPEN_FAILED` (external header
constant; only the sign of the returned code matters). -/
def VIRTIO_ERROR_FD_OPEN_FAILED : Int := 2

/-- Success return code `VIRTIO_SUCCESS`. -/
def VIRTIO_SUCCESS : Int := 0

/-- Device-descriptor record handed to the kernel backend
(`struct vbs_dev_info`). -/
structure vbs_dev_info where
  name : List Char
  vmid : Int
  nvq : Nat
  negotiated_features : Nat
  pio_range_start : Nat
  pio_range_len : Nat
deriving DecidableEq, Repr

/-- The all-zero `vbs_dev_info` produced by `memset(.., 0, ..)`
(an all-NUL name field reads back as the empty string). -/
def zero_dev_info : vbs_dev_info :=
  { name := [], vmid := 0, nvq := 0, negotiated_features := 0,
    pio_range_start := 0, pio_range_len := 0 }

/-- One per-queue descriptor record (`struct vbs_vq_info`). -/
structure vbs_vq_info where
  qsize : Nat
  pfn : Nat
  msix_idx : Nat
  msix_addr : Nat
  msix_data : Nat
deriving DecidableEq, Repr

/-- The all-zero `vbs_vq_info`. -/
def zero_vq_info : vbs_vq_info :=
  { qsize := 0, pfn := 0, msix_idx := 0, msix_addr := 0, msix_data := 0 }

/-- Per-queue descriptor records handed to the kernel backend
(`struct vbs_vqs_info`); the fixed C array is modelled as a list whose
length is preserved by `memset`. -/
structure vbs_vqs_info where
  nvq : Nat
  vqs : List vbs_vq_info
deriving DecidableEq, Repr

/-- Effect of `memset(&vqs, 0, sizeof(struct vbs_vqs_info))`: every array
slot zeroed, count zeroed, array length unchanged. -/
def vqs_zero (v : vbs_vqs_info) : vbs_vqs_info :=
  { nvq := 0, vqs := v.vqs.map (fun _ => zero_vq_info) }

/-- The per-queue record block is fully zeroed. -/
def vqs_info_zeroed (v : vbs_vqs_info) : Prop :=
  v.nvq = 0 ∧ ∀ q ∈ v.vqs, q = zero_vq_info

instance (v : vbs_vqs_info) : Decidable (vqs_info_zeroed v) := by
  unfold vqs_info_zeroed; infer_instance

/-- The virtqueue configuration the device registers
(`rnd->vq.qsize / pfn / msix_idx`). -/
structure vq_config where
  qsize : Nat
  pfn : Nat
  msix_idx : Nat
deriving DecidableEq, Repr

/-- Device instance state relevant to the claims
(`struct virtio_rnd`): the entropy-source fd, the virtqueue
configuration, and the VBS-K block (status, control-channel fd, and the
two descriptor records). -/
structure virtio_rnd where
  fd : Int
  vq : vq_config
  vbs_k_status : VBS_K_STATUS
  vbs_k_fd : Int
  vbs_k_dev : vbs_dev_info
  vbs_k_vqs : vbs_vqs_info
deriving DecidableEq, Repr

/-- Embeds `virtio_rnd_kernel_reset`: zeroes both descriptor records locally,
then issues the external `vbs_kernel_reset` control call (which keeps no
device-model state). -/
def virtio_rnd_kernel_reset (rnd : virtio_rnd) : virtio_rnd :=
  { rnd with vbs_k_dev := zero_dev_info, vbs_k_vqs := vqs_zero rnd.vbs_k_vqs }

/-- Embeds `virtio_rnd_reset`: resets the generic virtio base state (external,
not part of the modelled state), then — only when the session is
STARTED — stops the kernel side (`virtio_rnd_kernel_stop`, a pure
control call), zeroes the records via `virtio_rnd_kernel_reset`, and
returns the session to INITIAL. -/
def virtio_rnd_reset (rnd : virtio_rnd) : virtio_rnd :=
  if rnd.vbs_k_status = VIRTIO_DEV_STARTED then
    { virtio_rnd_kernel_reset rnd with vbs_k_status := VIRTIO_DEV_INITIAL }
  else
    rnd

/-- Tokenization performed by `strsep(&opts, ",")`: split at every
occurrence of the separator, keeping empty fields. -/
def split_on_char (c : Char) : List Char → List (List Char)
  | [] => [[]]
  | x :: xs =>
      match split_on_char c xs with
      | [] => if x = c then [[], []] else [[x]]
      | t :: ts => if x = c then [] :: t :: ts else (x :: t) :: ts

/-- Embeds `strsep(&opt, "=")` as seen from the caller: the part after the first
`=` if the token has one (`opt` non-NULL afterwards), else `none`.  The
part before the `=` (`vbs_k_opt`) is never inspected by the source. -/
def split_first_eq : List Char → Option (List Char)
  | [] => none
  | x :: xs => if x = '=' then some xs else split_first_eq xs

/-- Embeds `strncmp(opt, "on", 2) == 0`: the value starts with the two
characters `on`. -/
def starts_with_on : List Char → Bool
  | 'o' :: 'n' :: _ => true
  | _ => false

/-- One iteration of the option-scanning loop in `virtio_rnd_init`:
if the token has an `=` and the value after it starts with `on`, select
PRE_INIT; otherwise leave the running status unchanged. -/
def parse_step (tok : List Char) (k : VBS_K_STATUS) : VBS_K_STATUS :=
  match split_first_eq tok with
  | some val => if starts_with_on val then VIRTIO_DEV_PRE_INIT else k
  | none => k

/-- The option-scanning loop folded over all comma-separated tokens. -/
def parse_tokens : List (List Char) → VBS_K_STATUS → VBS_K_STATUS
  | [], k => k
  | t :: ts, k => parse_tokens ts (parse_step t k)

/-- Successive values taken by the local `kstat` during the
option-scanning loop (first entry is its initializer). -/
def parse_tokens_trace : List (List Char) → VBS_K_STATUS → List VBS_K_STATUS
  | [], k => [k]
  | t :: ts, k => k :: parse_tokens_trace ts (parse_step t k)

/-- The whole option-string scan of `virtio_rnd_init`: `kstat` starts at
INITIAL and is folded through every token. -/
def parse_vbs_k_opts (opts : List Char) : VBS_K_STATUS :=
  parse_tokens (split_on_char ',' opts) VIRTIO_DEV_INITIAL

/-- Array bound of the `vqs` array inside `struct vbs_vqs_info`
(external header constant; its value is irrelevant to every claim). -/
def VBS_MAX_QUEUES : Nat := 4

/-- Virtqueue state seen through the transport interface: the lengths of
the single buffer segment of each pending chain, the byte counts
reported for released chains, the used index, the used index at the
last batch completion, and counters of interrupts and completion
signals. -/
structure vq_state where
  pending : List Nat
  released : List Int
  used_idx : Nat
  save_used : Nat
  intr_count : Nat
  endchains_count : Nat
deriving DecidableEq, Repr

/-- Modelled from the spec: release-chain with a byte count
(`vq_relchain`, provided by the external virtio transport): the chain is
returned to the guest reporting `len` bytes and the used index
advances. -/
def vq_relchain (vq : vq_state) (len : Int) : vq_state :=
  { vq with released := vq.released ++ [len], used_idx := vq.used_idx + 1 }

/-- Modelled from the spec: raise-batch-completion
(`vq_endchains`, provided by the external virtio transport): raises one
completion signal that triggers a guest interrupt if and only if at
least one chain was released since the previous completion signal.  The
`used_all_avail` flag carries no further modelled meaning. -/
def vq_endchains (vq : vq_state) (_used_all_avail : Bool) : vq_state :=
  { vq with save_used := vq.used_idx,
            endchains_count := vq.endchains_count + 1,
            intr_count := vq.intr_count +
              (if vq.used_idx ≠ vq.save_used then 1 else 0) }

/-- The drain loop of `virtio_rnd_notify`: while chains are pending, pop
one (its single segment has length `blen`), read from the entropy source
(`readFn k blen` is the return of the `k`-th `read` call of the batch),
die on `assert(len > 0)` if the read reports no bytes, otherwise release
the chain with the byte count actually read. -/
def notify_drain (readFn : Nat → Nat → Int) :
    Nat → List Nat → vq_state → Option vq_state
  | _, [], vq => some vq
  | k, blen :: rest, vq =>
      let len := readFn k blen
      if len ≤ 0 then none
      else notify_drain readFn (k + 1) rest (vq_relchain { vq with pending := rest } len)

/-- Embeds `virtio_rnd_notify`: with an invalid entropy fd, immediately signal
batch completion with zero chains processed; otherwise drain the queue
and signal completion.  `none` models the `assert(len > 0)` abort. -/
def virtio_rnd_notify (rnd_fd : Int) (readFn : Nat → Nat → Int)
    (vq : vq_state) : Option vq_state :=
  if rnd_fd < 0 then some (vq_endchains vq false)
  else (notify_drain readFn 0 vq.pending vq).map (fun v => vq_endchains v true)

/-- Oracle inputs consumed by `virtio_rnd_init`: the fd returned by
`open("/dev/random")`, the byte count of the probe `read`, whether
`calloc` succeeds, the fd returned by `open("/dev/vbs_rng")`, and
whether `virtio_interrupt_init` succeeds. -/
structure InitEnv where
  random_fd : Int
  probe_len : Int
  calloc_ok : Bool
  vbs_open_fd : Int
  interrupt_init_ok : Bool
deriving DecidableEq, Repr

/-- Reason a `virtio_rnd_init` run returned `-1`. -/
inductive InitFailReason where
  | probe_failed
  | calloc_failed
  | interrupt_init_failed
deriving DecidableEq, Repr

/-- Observable outcome of a `virtio_rnd_init` run: return value, the
attached Device Instance (if any), the parsed `kstat`, the successive
session-status values taken during the run, which resources are still
held at return, which operation table was linked, and the failure
reason if any. -/
structure InitResult where
  ret : Int
  dev : Option virtio_rnd
  kstat_parsed : VBS_K_STATUS
  status_trace : List VBS_K_STATUS
  entropy_fd_open : Bool
  vbs_fd_opened : Bool
  vbs_fd_open : Bool
  rnd_freed : Bool
  ops_kernel : Bool
  fail : Option InitFailReason
deriving DecidableEq, Repr

/-- Embeds `virtio_rnd_init`: scan the option string, open and probe
`/dev/random` (the `assert(fd >= 0)` abort is `none`), allocate the
zeroed instance, run the VBS-K open when PRE_INIT was selected, link
the kernel operation table only when that open succeeded (else fall
back to the user-space table), register config-space identifiers
(external, not modelled), and run interrupt registration, whose failure
frees the instance but closes no fd. -/
def virtio_rnd_init (opts : List Char) (env : InitEnv) : Option InitResult :=
  let toks := split_on_char ',' opts
  let kstat := parse_tokens toks VIRTIO_DEV_INITIAL
  let ptrace := parse_tokens_trace toks VIRTIO_DEV_INITIAL
  if env.random_fd < 0 then
    none
  else if env.probe_len ≤ 0 then
    some { ret := -1, dev := none, kstat_parsed := kstat, status_trace := ptrace,
           entropy_fd_open := true, vbs_fd_opened := false, vbs_fd_open := false,
           rnd_freed := false, ops_kernel := false,
           fail := some InitFailReason.probe_failed }
  else if env.calloc_ok = false then
    some { ret := -1, dev := none, kstat_parsed := kstat, status_trace := ptrace,
           entropy_fd_open := true, vbs_fd_opened := false, vbs_fd_open := false,
           rnd_freed := false, ops_kernel := false,
           fail := some InitFailReason.calloc_failed }
  else
    let kinit_ok := decide (0 ≤ env.vbs_open_fd)
    let status2 := if kstat = VIRTIO_DEV_PRE_INIT then
        (if kinit_ok then VIRTIO_DEV_INIT_SUCCESS else VIRTIO_DEV_INIT_FAILED)
      else kstat
    let trace2 := if kstat = VIRTIO_DEV_PRE_INIT then ptrace ++ [status2] else ptrace
    let vbsOpened := decide (kstat = VIRTIO_DEV_PRE_INIT) && kinit_ok
    let opsKernel := decide (status2 = VIRTIO_DEV_INIT_SUCCESS)
    let rnd : virtio_rnd :=
      { fd := env.random_fd,
        vq := { qsize := VIRTIO_RND_RINGSZ, pfn := 0, msix_idx := 0 },
        vbs_k_status := status2,
        vbs_k_fd := if kstat = VIRTIO_DEV_PRE_INIT then env.vbs_open_fd else 0,
        vbs_k_dev := zero_dev_info,
        vbs_k_vqs := { nvq := 0, vqs := List.replicate VBS_MAX_QUEUES zero_vq_info } }
    if env.interrupt_init_ok = false then
      some { ret := -1, dev := none, kstat_parsed := kstat, status_trace := trace2,
             entropy_fd_open := true, vbs_fd_opened := vbsOpened,
             vbs_fd_open := vbsOpened, rnd_freed := true, ops_kernel := opsKernel,
             fail := some InitFailReason.interrupt_init_failed }
    else
      some { ret := 0, dev := some rnd, kstat_parsed := kstat, status_trace := trace2,
             entropy_fd_open := true, vbs_fd_opened := vbsOpened,
             vbs_fd_open := vbsOpened, rnd_freed := false, ops_kernel := opsKernel,
             fail := none }

/-- Embeds `virtio_rnd_kernel_dev_set`: fill the device-descriptor record
(bounded `strncpy` for the name) and return `VIRTIO_SUCCESS`. -/
def virtio_rnd_kernel_dev_set (name : List Char) (vmid : Int) (nvq : Nat)
    (feature : Nat) (pio_start pio_len : Nat) : vbs_dev_info × Int :=
  ({ name := name.take VBS_NAME_LEN, vmid := vmid, nvq := nvq,
     negotiated_features := feature, pio_range_start := pio_start,
     pio_range_len := pio_len },
   VIRTIO_SUCCESS)

/-- Embeds `virtio_rnd_kernel_vq_set`: reject an index not below the queue
count, leaving the records untouched; otherwise fill slot `idx` and the
count and return `VIRTIO_SUCCESS`. -/
def virtio_rnd_kernel_vq_set (kvqs : vbs_vqs_info) (nvq idx : Nat)
    (qsize pfn msix_idx : Nat) (msix_addr msix_data : Nat) :
    vbs_vqs_info × Int :=
  if nvq ≤ idx then (kvqs, -VIRTIO_ERROR_GENERAL)
  else
    ({ nvq := nvq,
       vqs := kvqs.vqs.set idx
         { qsize := qsize, pfn := pfn, msix_idx := msix_idx,
           msix_addr := msix_addr, msix_data := msix_data } },
     VIRTIO_SUCCESS)

/-- Context read by `virtio_rnd_k_set_status` through the virtio base:
the registered queue count (`vops->nvq`), device name, vm id, negotiated
features, bar 0 address, the MSI-X table (vector index to
address/message-data pair), and the outcome of the external
`vbs_kernel_start` call. -/
structure KEnv where
  nvq : Nat
  name : List Char
  vmid : Int
  negotiated_caps : Nat
  bar0_addr : Nat
  msix_table : Nat → Nat × Nat
  start_ok : Bool

/-- The per-queue record-building loop of `virtio_rnd_k_set_status` over
an explicit list of queue indices; returns the updated records and
whether every iteration succeeded (the source returns from the function
on the first failing iteration).  The locals `msix_addr`/`msix_data`
start at zero and are only assigned when the queue has an MSI-X vector;
since the same `rnd->vq` is consulted each round, this equals the
per-iteration conditional below. -/
def k_vq_loop (env : KEnv) (vqc : vq_config) :
    vbs_vqs_info → List Nat → vbs_vqs_info × Bool
  | vqs, [] => (vqs, true)
  | vqs, i :: rest =>
      let md := if vqc.msix_idx ≠ VIRTIO_MSI_NO_VECTOR
        then env.msix_table vqc.msix_idx else (0, 0)
      let r := virtio_rnd_kernel_vq_set vqs env.nvq i vqc.qsize vqc.pfn
        vqc.msix_idx md.1 md.2
      if r.2 < 0 then (r.1, false)
      else k_vq_loop env vqc r.1 rest

/-- Body of the handshake (the code after the status guard in
`virtio_rnd_k_set_status`), generalized over the index list the
per-queue loop walks: build the device-descriptor record, build each
per-queue record (aborting before start on the first failure), then
issue start and move to STARTED or START_FAILED.  The second component
reports whether start was issued. -/
def virtio_rnd_k_set_status_go (rnd : virtio_rnd) (env : KEnv)
    (idxs : List Nat) : virtio_rnd × Bool :=
  let dev2 := (virtio_rnd_kernel_dev_set env.name env.vmid env.nvq
    env.negotiated_caps (env.bar0_addr + 16) 2).1
  let rnd2 := { rnd with vbs_k_dev := dev2 }
  let p := k_vq_loop env rnd.vq rnd2.vbs_k_vqs idxs
  if p.2 = false then ({ rnd2 with vbs_k_vqs := p.1 }, false)
  else if env.start_ok then
    ({ rnd2 with vbs_k_vqs := p.1, vbs_k_status := VIRTIO_DEV_STARTED }, true)
  else
    ({ rnd2 with vbs_k_vqs := p.1, vbs_k_status := VIRTIO_DEV_START_FAILED }, true)

/-- Embeds `virtio_rnd_k_set_status`: only when the session is INIT_SUCCESS and
the written status value asserts DRIVER_OK does the handshake body run,
its loop walking queue indices `0, …, nvq-1`; otherwise nothing
happens. -/
def virtio_rnd_k_set_status (rnd : virtio_rnd) (env : KEnv)
    (written : Nat) : virtio_rnd × Bool :=
  if rnd.vbs_k_status = VIRTIO_DEV_INIT_SUCCESS ∧
      written &&& VIRTIO_CR_STATUS_DRIVER_OK ≠ 0 then
    virtio_rnd_k_set_status_go rnd env (List.range env.nvq)
  else (rnd, false)

/-- Observable outcome of a `virtio_rnd_deinit` run: which teardown
calls were made, how many times `close` was called on the control
channel, whether the instance was freed, and the session status at the
moment of the free (`none` when there was no instance). -/
structure DeinitResult where
  stop_called : Bool
  reset_called : Bool
  close_count : Nat
  freed : Bool
  final_status : Option VBS_K_STATUS
deriving DecidableEq, Repr

/-- Embeds `virtio_rnd_deinit`: a no-op when `dev->arg` is NULL; on a STARTED
session stop, reset, return to INITIAL, check `assert(vbs_k.fd >= 0)`
(`none` models the abort), close the control channel once; in every
non-NULL case free the instance. -/
def virtio_rnd_deinit (arg : Option virtio_rnd) : Option DeinitResult :=
  match arg with
  | none =>
      some { stop_called := false, reset_called := false, close_count := 0,
             freed := false, final_status := none }
  | some rnd =>
      if rnd.vbs_k_status = VIRTIO_DEV_STARTED then
        if rnd.vbs_k_fd < 0 then none
        else
          some { stop_called := true, reset_called := true, close_count := 1,
                 freed := true, final_status := some VIRTIO_DEV_INITIAL }
      else
        some { stop_called := false, reset_called := false, close_count := 0,
               freed := true, final_status := some rnd.vbs_k_status }

/-- The transitions the session-status path allows:
INITIAL→PRE_INIT→{INIT_SUCCESS | INIT_FAILED},
INIT_SUCCESS→{STARTED | START_FAILED}, STARTED→INITIAL. -/
def status_edge : VBS_K_STATUS → VBS_K_STATUS → Bool
  | VIRTIO_DEV_INITIAL, VIRTIO_DEV_PRE_INIT => true
  | VIRTIO_DEV_PRE_INIT, VIRTIO_DEV_INIT_SUCCESS => true
  | VIRTIO_DEV_PRE_INIT, VIRTIO_DEV_INIT_FAILED => true
  | VIRTIO_DEV_INIT_SUCCESS, VIRTIO_DEV_STARTED => true
  | VIRTIO_DEV_INIT_SUCCESS, VIRTIO_DEV_START_FAILED => true
  | VIRTIO_DEV_STARTED, VIRTIO_DEV_INITIAL => true
  | _, _ => false

/-- One observable status move: stay put or follow an allowed edge. -/
def status_step (a b : VBS_K_STATUS) : Prop :=
  a = b ∨ status_edge a b = true

instance (a b : VBS_K_STATUS) : Decidable (status_step a b) := by
  unfold status_step; infer_instance

/-! Concrete states used by witnesses and counterexamples. -/

/-- A non-zero device-descriptor record. -/
def ex_dev_record : vbs_dev_info :=
  { name := ['v'], vmid := 1, nvq := 1, negotiated_features := 1,
    pio_range_start := 1, pio_range_len := 1 }

/-- A non-zero per-queue record. -/
def ex_vq_record : vbs_vq_info :=
  { qsize := 64, pfn := 1, msix_idx := 1, msix_addr := 1, msix_data := 1 }

/-- A device whose session reached INIT_SUCCESS, with non-zero records. -/
def ex_rnd_init_success : virtio_rnd :=
  { fd := 3, vq := { qsize := 64, pfn := 0, msix_idx := 0 },
    vbs_k_status := VIRTIO_DEV_INIT_SUCCESS, vbs_k_fd := 5,
    vbs_k_dev := ex_dev_record,
    vbs_k_vqs := { nvq := 1, vqs := [ex_vq_record] } }

/-- The same device with a STARTED session. -/
def ex_rnd_started : virtio_rnd :=
  { ex_rnd_init_success with vbs_k_status := VIRTIO_DEV_STARTED }

/-- The same device stuck in INIT_FAILED. -/
def ex_rnd_init_failed : virtio_rnd :=
  { ex_rnd_init_success with vbs_k_status := VIRTIO_DEV_INIT_FAILED }

/-- A handshake context with one registered queue. -/
def exKEnv : KEnv :=
  { nvq := 1, name := String.toList "virtio_rnd", vmid := 1,
    negotiated_caps := 0, bar0_addr := 49152,
    msix_table := fun _ => (0, 0), start_ok := true }

/-- Oracle values for an init run whose probe read reports zero
bytes. -/
def exEnvProbeFail : InitEnv :=
  { random_fd := 3, probe_len := 0, calloc_ok := true, vbs_open_fd := 5,
    interrupt_init_ok := true }

/-- Oracle values for an init run in which interrupt-delivery
registration fails after the control channel was opened. -/
def exEnvIntrFail : InitEnv :=
  { random_fd := 3, probe_len := 1, calloc_ok := true, vbs_open_fd := 5,
    interrupt_init_ok := false }

/-- A batch state with one pending chain, in sync, with nonzero
counters to make frame effects visible. -/
def exVqC4 : vq_state :=
  { pending := [8], released := [], used_idx := 5, save_used := 5,
    intr_count := 2, endchains_count := 7 }

/-- An entropy source whose reads always report one byte. -/
def exPosRead : Nat → Nat → Int := fun _ _ => 1

/-- An entropy source that fills the full requested length of every
read: it reports exactly the requested byte count. -/
def exFullRead : Nat → Nat → Int := fun _ b => (b : Int)

/-- A batch with a single zero-length pending chain. -/
def exVqB0 : vq_state :=
  { pending := [0], released := [], used_idx := 0, save_used := 0,
    intr_count := 0, endchains_count := 0 }

/-- A batch with two pending chains of length 4. -/
def exVqB4 : vq_state :=
  { pending := [4, 4], released := [], used_idx := 0, save_used := 0,
    intr_count := 0, endchains_count := 0 }

/-- C1 (counterexample): from INIT_SUCCESS, the device reset operation
does not return the session to INITIAL and does not zero the records —
the whole VBS-K block is untouched, refuting "regardless of the status
before the reset". -/
theorem C1_counterexample :
    (virtio_rnd_reset ex_rnd_init_success).vbs_k_status =
      VIRTIO_DEV_INIT_SUCCESS ∧
    (virtio_rnd_reset ex_rnd_init_success).vbs_k_status ≠
      VIRTIO_DEV_INITIAL ∧
    (virtio_rnd_reset ex_rnd_init_success).vbs_k_dev ≠ zero_dev_info ∧
    ¬ vqs_info_zeroed (virtio_rnd_reset ex_rnd_init_success).vbs_k_vqs := by
  decide

/-- C1 (amended): the device reset operation returns the session to
INITIAL and fully zeroes both descriptor records exactly when the prior
status was STARTED; for every other prior status it leaves the session
status and both records unchanged. -/
theorem C1_reset_started_only (rnd : virtio_rnd) :
    (rnd.vbs_k_status = VIRTIO_DEV_STARTED →
      (virtio_rnd_reset rnd).vbs_k_status = VIRTIO_DEV_INITIAL ∧
      (virtio_rnd_reset rnd).vbs_k_dev = zero_dev_info ∧
      vqs_info_zeroed (virtio_rnd_reset rnd).vbs_k_vqs) ∧
    (rnd.vbs_k_status ≠ VIRTIO_DEV_STARTED → virtio_rnd_reset rnd = rnd) := by
  constructor
  · intro h
    unfold virtio_rnd_reset virtio_rnd_kernel_reset vqs_zero vqs_info_zeroed
    rw [if_pos h]
    refine ⟨rfl, rfl, rfl, ?_⟩
    intro q hq
    rcases List.mem_map.mp hq with ⟨a, _, e⟩
    exact e.symm
  · intro h
    unfold virtio_rnd_reset
    rw [if_neg h]

/-- C1 (witness): the amended statement evaluated on a concrete STARTED
device with non-zero records. -/
theorem C1_witness :
    (virtio_rnd_reset ex_rnd_started).vbs_k_status = VIRTIO_DEV_INITIAL ∧
    (virtio_rnd_reset ex_rnd_started).vbs_k_dev = zero_dev_info ∧
    vqs_info_zeroed (virtio_rnd_reset ex_rnd_started).vbs_k_vqs :=
  (C1_reset_started_only ex_rnd_started).1 (by decide)

/-- C9: deinit with an absent device argument performs no teardown and
frees nothing; deinit of a STARTED session (whose control-channel fd is
valid, as the handshake guarantees) stops and resets the session,
returns it to INITIAL, and closes the control channel exactly once
before freeing the instance; deinit of any non-STARTED session performs
no stop, reset, or close before freeing the instance. -/
theorem C9_deinit :
    (virtio_rnd_deinit none =
      some { stop_called := false, reset_called := false, close_count := 0,
             freed := false, final_status := none }) ∧
    (∀ rnd : virtio_rnd, rnd.vbs_k_status = VIRTIO_DEV_STARTED →
      0 ≤ rnd.vbs_k_fd →
      virtio_rnd_deinit (some rnd) =
        some { stop_called := true, reset_called := true, close_count := 1,
               freed := true, final_status := some VIRTIO_DEV_INITIAL }) ∧
    (∀ rnd : virtio_rnd, rnd.vbs_k_status ≠ VIRTIO_DEV_STARTED →
      virtio_rnd_deinit (some rnd) =
        some { stop_called := false, reset_called := false, close_count := 0,
               freed := true, final_status := some rnd.vbs_k_status }) := by
  refine ⟨rfl, fun rnd h hfd => ?_, fun rnd h => ?_⟩
  · have hn : ¬ rnd.vbs_k_fd < 0 := not_lt.mpr hfd
    simp only [virtio_rnd_deinit, h, if_pos, hn, ite_false, if_neg,
      not_false_iff]
  · simp only [virtio_rnd_deinit, h, if_neg, ite_false]

/-- C9 (witness): the STARTED branch evaluated on a concrete device. -/
theorem C9_witness :
    virtio_rnd_deinit (some ex_rnd_started) =
      some { stop_called := true, reset_called := true, close_count := 1,
             freed := true, final_status := some VIRTIO_DEV_INITIAL } :=
  C9_deinit.2.1 ex_rnd_started (by decide) (by decide)

/-- C10: a guest status write handled by the kernel-offload operation
table changes nothing at all — session status, device-descriptor record
and per-queue records included — whenever the session is not
INIT_SUCCESS or the written value lacks the DRIVER_OK bit. -/
theorem C10_frame (rnd : virtio_rnd) (env : KEnv) (written : Nat)
    (h : rnd.vbs_k_status ≠ VIRTIO_DEV_INIT_SUCCESS ∨
      written &&& VIRTIO_CR_STATUS_DRIVER_OK = 0) :
    virtio_rnd_k_set_status rnd env written = (rnd, false) := by
  unfold virtio_rnd_k_set_status
  rcases h with h | h
  · rw [if_neg]; intro hc; exact h hc.1
  · rw [if_neg]; intro hc; exact hc.2 h

/-- C10 (witness): evaluated on a STARTED device with DRIVER_OK
written. -/
theorem C10_witness :
    virtio_rnd_k_set_status ex_rnd_started exKEnv 4 = (ex_rnd_started, false) :=
  C10_frame ex_rnd_started exKEnv 4 (Or.inl (by decide))

/-- The option-scanning loop leaves its accumulator alone when no token
carries an `=` whose value starts with `on`. -/
lemma parse_tokens_id (toks : List (List Char)) (k : VBS_K_STATUS)
    (h : ∀ tok ∈ toks, ∀ val, split_first_eq tok = some val →
      starts_with_on val = false) :
    parse_tokens toks k = k := by
  induction toks generalizing k with
  | nil => rfl
  | cons t ts ih =>
      have hstep : parse_step t k = k := by
        unfold parse_step
        cases hsp : split_first_eq t with
        | none => rfl
        | some val =>
            have hv := h t (List.mem_cons_self t ts) val hsp
            simp [hv]
      simp only [parse_tokens, hstep]
      exact ih k fun tok htok => h tok (List.mem_cons_of_mem _ htok)

/-- One scan iteration either keeps the running status or selects
PRE_INIT. -/
lemma parse_step_cases (t : List Char) (k : VBS_K_STATUS) :
    parse_step t k = k ∨ parse_step t k = VIRTIO_DEV_PRE_INIT := by
  unfold parse_step
  cases split_first_eq t with
  | none => exact Or.inl rfl
  | some val =>
      by_cases hv : starts_with_on val
      · right; simp [hv]
      · left; simp [hv]

/-- Once the scan has selected PRE_INIT, no later token can change it:
both branches of an iteration keep a PRE_INIT accumulator. -/
lemma parse_tokens_pre_init (toks : List (List Char)) :
    parse_tokens toks VIRTIO_DEV_PRE_INIT = VIRTIO_DEV_PRE_INIT := by
  induction toks with
  | nil => rfl
  | cons t ts ih =>
      rcases parse_step_cases t VIRTIO_DEV_PRE_INIT with h | h <;>
        simp only [parse_tokens, h, ih]

/-- The for-every positive direction of the scan: whenever some token
carries an `=` whose value starts with `on`, the scan result is
PRE_INIT, whatever the accumulator was when that token is reached. -/
lemma parse_tokens_match (toks : List (List Char)) :
    ∀ k, (∃ tok ∈ toks, ∃ val, split_first_eq tok = some val ∧
      starts_with_on val = true) →
      parse_tokens toks k = VIRTIO_DEV_PRE_INIT := by
  induction toks with
  | nil =>
      intro k h
      rcases h with ⟨t, ht, _⟩
      exact absurd ht (List.not_mem_nil t)
  | cons t ts ih =>
      intro k h
      rcases h with ⟨tok, htok, val, hval, hon⟩
      rcases List.mem_cons.mp htok with rfl | hmem
      · have hstep : parse_step tok k = VIRTIO_DEV_PRE_INIT := by
          unfold parse_step
          rw [hval]
          simp [hon]
        simp only [parse_tokens, hstep]
        exact parse_tokens_pre_init ts
      · simp only [parse_tokens]
        exact ih (parse_step t k) ⟨tok, hmem, val, hval, hon⟩

/-- C2 (counterexample): the option string `foo=on` contains no
`kernel=on` token, yet the scan selects PRE_INIT: the parser never
looks at the key before the `=`, so a malformed string does not leave
the session at INITIAL. -/
theorem C2_counterexample :
    (split_on_char ',' (String.toList "foo=on")).contains
      (String.toList "kernel=on") = false ∧
    parse_vbs_k_opts (String.toList "foo=on") = VIRTIO_DEV_PRE_INIT := by
  decide

/-- C2 (amended): the scan of the option string is a pure function of
the string computed before the entropy probe (the recorded parse result
never depends on the probe environment); `kernel=on` selects PRE_INIT,
but so does — stated for every option string — any comma-separated
token whose value after its first `=` starts with `on`, the key being
ignored; a string with no such token (the empty string included)
leaves the session at INITIAL, in which case init links the user-space
operation table. -/
theorem C2_amended :
    parse_vbs_k_opts (String.toList "kernel=on") = VIRTIO_DEV_PRE_INIT ∧
    (∀ opts env r, virtio_rnd_init opts env = some r →
      r.kstat_parsed = parse_vbs_k_opts opts) ∧
    (∀ opts, (∀ tok ∈ split_on_char ',' opts, ∀ val,
        split_first_eq tok = some val → starts_with_on val = false) →
      parse_vbs_k_opts opts = VIRTIO_DEV_INITIAL) ∧
    parse_vbs_k_opts [] = VIRTIO_DEV_INITIAL ∧
    (∀ opts env r, virtio_rnd_init opts env = some r →
      parse_vbs_k_opts opts = VIRTIO_DEV_INITIAL → r.ops_kernel = false) ∧
    (∀ opts, (∃ tok ∈ split_on_char ',' opts, ∃ val,
        split_first_eq tok = some val ∧ starts_with_on val = true) →
      parse_vbs_k_opts opts = VIRTIO_DEV_PRE_INIT) := by
  refine ⟨by decide, ?_, ?_, rfl, ?_, ?_⟩
  · intro opts env r h
    simp only [virtio_rnd_init] at h
    split_ifs at h
    all_goals simp_all [parse_vbs_k_opts]
    all_goals subst h
    all_goals simp_all
  · intro opts h
    exact parse_tokens_id _ _ h
  · intro opts env r h hp
    unfold parse_vbs_k_opts at hp
    simp only [virtio_rnd_init] at h
    split_ifs at h
    all_goals simp_all
    all_goals subst h
    all_goals simp_all
  · intro opts h
    exact parse_tokens_match _ _ h

/-- C2 (witness): the amended statement evaluated on concrete strings:
a string with no `=on` token parses to INITIAL, and the universal
positive direction applied to a string carrying the token `foo=on`
(whose value after the `=` starts with `on`) parses to PRE_INIT. -/
theorem C2_witness :
    parse_vbs_k_opts (String.toList "abc,x") = VIRTIO_DEV_INITIAL ∧
    parse_vbs_k_opts (String.toList "foo=on,off") = VIRTIO_DEV_PRE_INIT :=
  ⟨C2_amended.2.2.1 (String.toList "abc,x") (by decide),
   C2_amended.2.2.2.2.2 (String.toList "foo=on,off")
     ⟨String.toList "foo=on", by decide, String.toList "on", by decide,
      by decide⟩⟩

/-- C6: when the probe read of the entropy source returns zero or a
negative byte count, init returns `-1` with no Device Instance
attached; when the probe returns a positive count, init never fails
with the probe-failure reason. -/
theorem C6_probe_guard (opts : List Char) (env : InitEnv)
    (hfd : 0 ≤ env.random_fd) :
    (env.probe_len ≤ 0 →
      ∃ r, virtio_rnd_init opts env = some r ∧ r.ret = -1 ∧ r.dev = none ∧
        r.fail = some InitFailReason.probe_failed) ∧
    (0 < env.probe_len → ∀ r, virtio_rnd_init opts env = some r →
      r.fail ≠ some InitFailReason.probe_failed) := by
  have hn : ¬ env.random_fd < 0 := not_lt.mpr hfd
  constructor
  · intro hp
    unfold virtio_rnd_init
    rw [if_neg hn, if_pos hp]
    exact ⟨_, rfl, rfl, rfl, rfl⟩
  · intro hp r h
    have hnp : ¬ env.probe_len ≤ 0 := not_le.mpr hp
    unfold virtio_rnd_init at h
    rw [if_neg hn, if_neg hnp] at h
    split_ifs at h
    all_goals simp_all
    all_goals subst h
    all_goals simp_all

/-- C6 (witness): the probe-failure branch evaluated on a concrete
environment. -/
theorem C6_witness :
    ∃ r, virtio_rnd_init [] exEnvProbeFail = some r ∧ r.ret = -1 ∧
      r.dev = none ∧ r.fail = some InitFailReason.probe_failed :=
  (C6_probe_guard [] exEnvProbeFail (by decide)).1 (by decide)

/-- C7 (counterexample): with kernel offload requested, the control
channel open, and interrupt registration failing, init returns `-1` and
frees the instance, but both the entropy-source handle and the opened
control channel are still open at return — they are not released,
refuting "every resource acquired earlier in init is released". -/
theorem C7_counterexample :
    virtio_rnd_init (String.toList "kernel=on") exEnvIntrFail =
      some { ret := -1, dev := none, kstat_parsed := VIRTIO_DEV_PRE_INIT,
             status_trace := [VIRTIO_DEV_INITIAL, VIRTIO_DEV_PRE_INIT,
               VIRTIO_DEV_INIT_SUCCESS],
             entropy_fd_open := true, vbs_fd_opened := true,
             vbs_fd_open := true, rnd_freed := true, ops_kernel := true,
             fail := some InitFailReason.interrupt_init_failed } := by
  decide

/-- C7 (amended): when interrupt-delivery registration fails, init
returns failure and frees the Device Instance allocation, but releases
neither the opened entropy-source handle nor an opened kernel-offload
control channel — whatever was opened stays open. -/
theorem C7_amended (opts : List Char) (env : InitEnv)
    (hfd : 0 ≤ env.random_fd) (hp : 0 < env.probe_len)
    (hc : env.calloc_ok = true) (hi : env.interrupt_init_ok = false) :
    ∃ r, virtio_rnd_init opts env = some r ∧ r.ret = -1 ∧ r.dev = none ∧
      r.rnd_freed = true ∧ r.fail = some InitFailReason.interrupt_init_failed ∧
      r.entropy_fd_open = true ∧ r.vbs_fd_open = r.vbs_fd_opened := by
  have hn : ¬ env.random_fd < 0 := not_lt.mpr hfd
  have hnp : ¬ env.probe_len ≤ 0 := not_le.mpr hp
  have hnc : ¬ env.calloc_ok = false := by simp [hc]
  unfold virtio_rnd_init
  rw [if_neg hn, if_neg hnp, if_neg hnc, if_pos hi]
  exact ⟨_, rfl, rfl, rfl, rfl, rfl, rfl, rfl⟩

/-- C7 (witness): the amended statement evaluated on a concrete
environment with the channel opened. -/
theorem C7_witness :
    ∃ r, virtio_rnd_init (String.toList "kernel=on") exEnvIntrFail = some r ∧
      r.ret = -1 ∧ r.dev = none ∧ r.rnd_freed = true ∧
      r.fail = some InitFailReason.interrupt_init_failed ∧
      r.entropy_fd_open = true ∧ r.vbs_fd_open = r.vbs_fd_opened :=
  C7_amended (String.toList "kernel=on") exEnvIntrFail (by decide) (by decide)
    (by decide) (by decide)

/-- When every entropy read reports a positive byte count, the drain
loop terminates normally, advances the used index by one per pending
chain, releases one chain per pending chain, and touches neither the
completion bookkeeping nor the interrupt counter. -/
lemma notify_drain_pos (readFn : Nat → Nat → Int)
    (hpos : ∀ k b, 0 < readFn k b) :
    ∀ (chains : List Nat) (k : Nat) (vq : vq_state),
      ∃ v, notify_drain readFn k chains vq = some v ∧
        v.used_idx = vq.used_idx + chains.length ∧
        v.save_used = vq.save_used ∧
        v.intr_count = vq.intr_count ∧
        v.endchains_count = vq.endchains_count ∧
        v.released.length = vq.released.length + chains.length := by
  intro chains
  induction chains with
  | nil =>
      intro k vq
      exact ⟨vq, rfl, by simp, rfl, rfl, rfl, by simp⟩
  | cons b rest ih =>
      intro k vq
      have hnb : ¬ readFn k b ≤ 0 := not_le.mpr (hpos k b)
      obtain ⟨v, hv, h1, h2, h3, h4, h5⟩ :=
        ih (k + 1) (vq_relchain { vq with pending := rest } (readFn k b))
      refine ⟨v, ?_, ?_, ?_, ?_, ?_, ?_⟩
      · simp only [notify_drain, hnb, ite_false, if_neg, not_false_iff]
        exact hv
      · rw [h1]; simp [vq_relchain]; omega
      · rw [h2]; rfl
      · rw [h3]; rfl
      · rw [h4]; rfl
      · rw [h5]; simp [vq_relchain]; omega

/-- C4: under the user-space backend (valid entropy fd), with the batch
starting synchronized (no chain released since the previous completion)
and every read positive, the notify handler completes with exactly one
completion signal, and that signal raises a guest interrupt if and only
if at least one descriptor chain was pending in the batch; a kick that
finds zero pending chains raises no interrupt. -/
theorem C4_interrupt_iff_chains (fd : Int) (readFn : Nat → Nat → Int)
    (vq : vq_state) (hfd : 0 ≤ fd) (hsync : vq.save_used = vq.used_idx)
    (hpos : ∀ k b, 0 < readFn k b) :
    ∃ v, virtio_rnd_notify fd readFn vq = some v ∧
      v.endchains_count = vq.endchains_count + 1 ∧
      (v.intr_count = vq.intr_count + 1 ↔ vq.pending ≠ []) ∧
      (v.intr_count = vq.intr_count ↔ vq.pending = []) := by
  have hnfd : ¬ fd < 0 := not_lt.mpr hfd
  unfold virtio_rnd_notify
  rw [if_neg hnfd]
  obtain ⟨v0, hv0, h1, h2, h3, h4, h5⟩ :=
    notify_drain_pos readFn hpos vq.pending 0 vq
  rw [hv0]
  refine ⟨vq_endchains v0 true, rfl, ?_, ?_, ?_⟩
  · simp [vq_endchains, h4]
  · by_cases hp : vq.pending = []
    · have hlen : vq.pending.length = 0 := by simp [hp]
      have heq : v0.used_idx = v0.save_used := by rw [h1, h2, hsync, hlen]; omega
      simp [vq_endchains, heq, h3, hp]
    · have hlen : vq.pending.length ≠ 0 := by
        simpa using fun hh => hp (List.length_eq_zero.mp hh)
      have hne : v0.used_idx ≠ v0.save_used := by
        rw [h1, h2, hsync]; omega
      simp [vq_endchains, hne, h3, hp]
  · by_cases hp : vq.pending = []
    · have hlen : vq.pending.length = 0 := by simp [hp]
      have heq : v0.used_idx = v0.save_used := by rw [h1, h2, hsync, hlen]; omega
      simp [vq_endchains, heq, h3, hp]
    · have hlen : vq.pending.length ≠ 0 := by
        simpa using fun hh => hp (List.length_eq_zero.mp hh)
      have hne : v0.used_idx ≠ v0.save_used := by
        rw [h1, h2, hsync]; omega
      simp [vq_endchains, hne, h3, hp]

/-- C4 (witness): one pending chain, one completion, one interrupt. -/
theorem C4_witness :
    ∃ v, virtio_rnd_notify 3 exPosRead exVqC4 = some v ∧
      v.endchains_count = exVqC4.endchains_count + 1 ∧
      (v.intr_count = exVqC4.intr_count + 1 ↔ exVqC4.pending ≠ []) ∧
      (v.intr_count = exVqC4.intr_count ↔ exVqC4.pending = []) :=
  C4_interrupt_iff_chains 3 exPosRead exVqC4 (by decide) rfl
    (fun _ _ => by norm_num [exPosRead])

/-- With `B ≥ 1` and every read filling the full requested length, the
drain loop over `N` chains of length `B` releases them all, reporting
`B` bytes each. -/
lemma notify_drain_replicate (readFn : Nat → Nat → Int) (B : Nat)
    (hB : 1 ≤ B) (hread : ∀ k, readFn k B = (B : Int)) :
    ∀ (N k : Nat) (vq : vq_state), vq.pending = List.replicate N B →
      notify_drain readFn k (List.replicate N B) vq =
        some { vq with pending := [],
                       released := vq.released ++ List.replicate N ((B : Int)),
                       used_idx := vq.used_idx + N } := by
  intro N
  induction N with
  | zero =>
      intro k vq hp
      cases vq with
      | mk p rel u s i e =>
          simp [List.replicate] at hp ⊢
          simp [notify_drain, hp]
  | succ n ih =>
      intro k vq hp
      have hb : ¬ readFn k B ≤ 0 := by
        rw [hread k]
        exact not_le.mpr (by exact_mod_cast hB)
      have hrec := ih (k + 1) (vq_relchain { vq with pending := List.replicate n B } (readFn k B)) rfl
      simp only [List.replicate_succ, notify_drain, hb, ite_false, if_neg,
        not_false_iff]
      rw [hrec, hread k]
      cases vq with
      | mk p rel u s i e =>
          simp [vq_relchain, List.replicate_succ, List.append_assoc]
          try omega

/-- C5 (counterexample): one pending chain whose single buffer segment
has length 0 (`N = 1`, `B = 0`), with the entropy source `exFullRead`
that fills the full requested length of every read: the read returns
`0`, the `assert(len > 0)` fires, and the notify handler aborts instead
of releasing one chain reporting 0 bytes and raising one completion
signal — the claim fails at `B = 0`. -/
theorem C5_counterexample :
    exVqB0.pending = List.replicate 1 0 ∧
    virtio_rnd_notify 3 exFullRead exVqB0 = none := ⟨rfl, rfl⟩

/-- C5 (amended): for every `N ≥ 0` and `B ≥ 1` (the boundary `B = 0`
trips the handler's `assert(len > 0)` abort), given a valid entropy
handle, `N` pending chains each with one segment of length `B`, and an
entropy source whose every read fills the full requested length, the
notify handler releases exactly the `N` chains, each reporting exactly
`B` bytes, and raises exactly one completion signal. -/
theorem C5_amended (N B : Nat) (fd : Int) (readFn : Nat → Nat → Int)
    (vq : vq_state) (hfd : 0 ≤ fd) (hB : 1 ≤ B)
    (hp : vq.pending = List.replicate N B)
    (hread : ∀ k, readFn k B = (B : Int)) :
    ∃ v, virtio_rnd_notify fd readFn vq = some v ∧
      v.pending = [] ∧
      v.released = vq.released ++ List.replicate N ((B : Int)) ∧
      v.released.length = vq.released.length + N ∧
      v.endchains_count = vq.endchains_count + 1 := by
  have hnfd : ¬ fd < 0 := not_lt.mpr hfd
  unfold virtio_rnd_notify
  rw [if_neg hnfd, hp, notify_drain_replicate readFn B hB hread N 0 vq hp]
  refine ⟨_, rfl, rfl, rfl, ?_, rfl⟩
  simp [vq_endchains]

/-- C5 (witness): the amended statement evaluated at `N = 2`, `B = 4`. -/
theorem C5_witness :
    ∃ v, virtio_rnd_notify 3 exFullRead exVqB4 = some v ∧
      v.pending = [] ∧
      v.released = exVqB4.released ++ List.replicate 2 ((4 : Int)) ∧
      v.released.length = exVqB4.released.length + 2 ∧
      v.endchains_count = exVqB4.endchains_count + 1 :=
  C5_amended 2 4 3 exFullRead exVqB4 (by decide) (by decide) rfl
    (fun _ => rfl)

/-- The scan trace starts at its initializer. -/
lemma parse_trace_cons (toks : List (List Char)) (k : VBS_K_STATUS) :
    ∃ l, parse_tokens_trace toks k = k :: l := by
  cases toks with
  | nil => exact ⟨[], rfl⟩
  | cons t ts => exact ⟨_, rfl⟩

/-- Head of the scan trace. -/
lemma parse_trace_head (toks : List (List Char)) (k : VBS_K_STATUS) :
    (parse_tokens_trace toks k).head? = some k := by
  obtain ⟨l, hl⟩ := parse_trace_cons toks k
  rw [hl]; rfl

/-- Head of the scan trace with a suffix appended. -/
lemma trace_head_append (toks : List (List Char)) (k : VBS_K_STATUS)
    (xs : List VBS_K_STATUS) :
    (parse_tokens_trace toks k ++ xs).head? = some k := by
  obtain ⟨l, hl⟩ := parse_trace_cons toks k
  rw [hl]; rfl

/-- The last entry of the scan trace is the scan result. -/
lemma parse_trace_getLast (toks : List (List Char)) :
    ∀ k, (parse_tokens_trace toks k).getLast? = some (parse_tokens toks k) := by
  induction toks with
  | nil => intro k; rfl
  | cons t ts ih =>
      intro k
      obtain ⟨l, hl⟩ := parse_trace_cons ts (parse_step t k)
      simp only [parse_tokens_trace, parse_tokens]
      rw [hl, List.getLast?_cons_cons, ← hl, ih]

/-- The scan trace only moves along allowed steps when it starts at
INITIAL or PRE_INIT. -/
lemma parse_trace_chain (toks : List (List Char)) :
    ∀ k, k = VIRTIO_DEV_INITIAL ∨ k = VIRTIO_DEV_PRE_INIT →
      List.Chain' status_step (parse_tokens_trace toks k) := by
  induction toks with
  | nil => intro k _; simp [parse_tokens_trace]
  | cons t ts ih =>
      intro k hk
      simp only [parse_tokens_trace]
      obtain ⟨l, hl⟩ := parse_trace_cons ts (parse_step t k)
      rw [hl, List.chain'_cons]
      constructor
      · rcases parse_step_cases t k with h | h
        · rw [h]; exact Or.inl rfl
        · rw [h]
          rcases hk with hk | hk <;> rw [hk]
          · exact Or.inr rfl
          · exact Or.inl rfl
      · rw [← hl]
        apply ih
        rcases parse_step_cases t k with h | h
        · rw [h]; exact hk
        · rw [h]; exact Or.inr rfl

/-- Appending one more allowed step to the scan trace keeps the chain
property. -/
lemma trace_chain_append (toks : List (List Char)) (s : VBS_K_STATUS)
    (hs : status_step (parse_tokens toks VIRTIO_DEV_INITIAL) s) :
    List.Chain' status_step
      (parse_tokens_trace toks VIRTIO_DEV_INITIAL ++ [s]) := by
  apply List.Chain'.append (parse_trace_chain toks _ (Or.inl rfl)) (by simp)
  intro x hx y hy
  rw [parse_trace_getLast] at hx
  simp only [List.head?_cons, Option.mem_def, Option.some.injEq] at hx hy
  subst hx; subst hy
  exact hs

/-- The status component of the handshake body: untouched on abort,
else STARTED or START_FAILED. -/
lemma k_set_status_go_status (rnd : virtio_rnd) (env : KEnv)
    (idxs : List Nat) :
    (virtio_rnd_k_set_status_go rnd env idxs).1.vbs_k_status =
        rnd.vbs_k_status ∨
    (virtio_rnd_k_set_status_go rnd env idxs).1.vbs_k_status =
        VIRTIO_DEV_STARTED ∨
    (virtio_rnd_k_set_status_go rnd env idxs).1.vbs_k_status =
        VIRTIO_DEV_START_FAILED := by
  unfold virtio_rnd_k_set_status_go
  dsimp only
  split_ifs with h1 h2
  · left; rfl
  · right; left; rfl
  · right; right; rfl

/-- C3: across every operation that touches the session status, the
status moves only along the path INITIAL → PRE_INIT →
{INIT_SUCCESS | INIT_FAILED}, INIT_SUCCESS → {STARTED | START_FAILED},
STARTED → INITIAL: every init run's recorded status trace is a chain of
allowed steps beginning at INITIAL and ending at the attached device's
status; a guest status write moves the status by at most one allowed
edge; so do reset and deinit; and from INIT_FAILED or START_FAILED no
operation moves the status at all. -/
theorem C3_status_path :
    (∀ opts env r, virtio_rnd_init opts env = some r →
      r.status_trace.head? = some VIRTIO_DEV_INITIAL ∧
      List.Chain' status_step r.status_trace ∧
      ∀ d ∈ r.dev, r.status_trace.getLast? = some d.vbs_k_status) ∧
    (∀ rnd env written,
      status_step rnd.vbs_k_status
        (virtio_rnd_k_set_status rnd env written).1.vbs_k_status) ∧
    (∀ rnd, status_step rnd.vbs_k_status
      (virtio_rnd_reset rnd).vbs_k_status) ∧
    (∀ rnd r, virtio_rnd_deinit (some rnd) = some r →
      ∀ s ∈ r.final_status, status_step rnd.vbs_k_status s) ∧
    (∀ rnd env written,
      rnd.vbs_k_status = VIRTIO_DEV_INIT_FAILED ∨
      rnd.vbs_k_status = VIRTIO_DEV_START_FAILED →
      (virtio_rnd_k_set_status rnd env written).1 = rnd ∧
      virtio_rnd_reset rnd = rnd ∧
      virtio_rnd_deinit (some rnd) =
        some { stop_called := false, reset_called := false, close_count := 0,
               freed := true, final_status := some rnd.vbs_k_status }) := by
  refine ⟨?_, ?_, ?_, ?_, ?_⟩
  · intro opts env r h
    simp only [virtio_rnd_init] at h
    by_cases h1 : env.random_fd < 0
    · rw [if_pos h1] at h; exact Option.noConfusion h
    rw [if_neg h1] at h
    by_cases h2 : env.probe_len ≤ 0
    · rw [if_pos h2] at h
      injection h with h; subst h
      exact ⟨parse_trace_head _ _, parse_trace_chain _ _ (Or.inl rfl), by simp⟩
    rw [if_neg h2] at h
    by_cases h3 : env.calloc_ok = false
    · rw [if_pos h3] at h
      injection h with h; subst h
      exact ⟨parse_trace_head _ _, parse_trace_chain _ _ (Or.inl rfl), by simp⟩
    rw [if_neg h3] at h
    by_cases h4 : parse_tokens (split_on_char ',' opts) VIRTIO_DEV_INITIAL =
        VIRTIO_DEV_PRE_INIT
    · by_cases h5 : (0 : Int) ≤ env.vbs_open_fd
      · simp only [h4, h5, if_true, decide_True, ite_true, eq_self_iff_true,
          Bool.and_self] at h
        by_cases h6 : env.interrupt_init_ok = false
        · rw [if_pos h6] at h
          injection h with h; subst h
          refine ⟨trace_head_append _ _ _, trace_chain_append _ _ ?_, by simp⟩
          rw [h4]; exact Or.inr rfl
        · rw [if_neg h6] at h
          injection h with h; subst h
          refine ⟨trace_head_append _ _ _, trace_chain_append _ _ ?_, ?_⟩
          · rw [h4]; exact Or.inr rfl
          · intro d hd
            simp only [Option.mem_def, Option.some.injEq] at hd
            subst hd
            simp [List.getLast?_concat]
      · simp only [h4, h5, if_true, decide_True, decide_False, ite_true,
          ite_false, eq_self_iff_true, Bool.and_false] at h
        by_cases h6 : env.interrupt_init_ok = false
        · rw [if_pos h6] at h
          injection h with h; subst h
          refine ⟨trace_head_append _ _ _, trace_chain_append _ _ ?_, by simp⟩
          rw [h4]; exact Or.inr rfl
        · rw [if_neg h6] at h
          injection h with h; subst h
          refine ⟨trace_head_append _ _ _, trace_chain_append _ _ ?_, ?_⟩
          · rw [h4]; exact Or.inr rfl
          · intro d hd
            simp only [Option.mem_def, Option.some.injEq] at hd
            subst hd
            simp [List.getLast?_concat]
    · simp only [h4, if_false, ite_false] at h
      by_cases h6 : env.interrupt_init_ok = false
      · rw [if_pos h6] at h
        injection h with h; subst h
        exact ⟨parse_trace_head _ _, parse_trace_chain _ _ (Or.inl rfl),
          by simp⟩
      · rw [if_neg h6] at h
        injection h with h; subst h
        refine ⟨parse_trace_head _ _, parse_trace_chain _ _ (Or.inl rfl), ?_⟩
        intro d hd
        simp only [Option.mem_def, Option.some.injEq] at hd
        subst hd
        exact parse_trace_getLast _ _
  · intro rnd env written
    unfold virtio_rnd_k_set_status
    by_cases hg : rnd.vbs_k_status = VIRTIO_DEV_INIT_SUCCESS ∧
        written &&& VIRTIO_CR_STATUS_DRIVER_OK ≠ 0
    · rw [if_pos hg]
      rcases k_set_status_go_status rnd env (List.range env.nvq) with h | h | h
      · exact Or.inl h.symm
      · right; rw [hg.1, h]; rfl
      · right; rw [hg.1, h]; rfl
    · rw [if_neg hg]; exact Or.inl rfl
  · intro rnd
    by_cases h : rnd.vbs_k_status = VIRTIO_DEV_STARTED
    · right
      unfold virtio_rnd_reset
      rw [if_pos h, h]
      rfl
    · left
      unfold virtio_rnd_reset
      rw [if_neg h]
  · intro rnd r h s hs
    simp only [virtio_rnd_deinit] at h
    by_cases hst : rnd.vbs_k_status = VIRTIO_DEV_STARTED
    · rw [if_pos hst] at h
      by_cases hfd : rnd.vbs_k_fd < 0
      · rw [if_pos hfd] at h; exact Option.noConfusion h
      · rw [if_neg hfd] at h
        injection h with h; subst h
        simp only [Option.mem_def, Option.some.injEq] at hs
        subst hs
        right; rw [hst]; rfl
    · rw [if_neg hst] at h
      injection h with h; subst h
      simp only [Option.mem_def, Option.some.injEq] at hs
      subst hs
      exact Or.inl rfl
  · intro rnd env written hf
    have hne : rnd.vbs_k_status ≠ VIRTIO_DEV_INIT_SUCCESS := by
      rcases hf with h | h <;> rw [h] <;> decide
    have hns : rnd.vbs_k_status ≠ VIRTIO_DEV_STARTED := by
      rcases hf with h | h <;> rw [h] <;> decide
    refine ⟨?_, ?_, ?_⟩
    · unfold virtio_rnd_k_set_status
      rw [if_neg (fun hc => hne hc.1)]
    · unfold virtio_rnd_reset
      rw [if_neg hns]
    · simp only [virtio_rnd_deinit]
      rw [if_neg hns]

/-- C3 (witness): the failure-state stability conjunct evaluated on a
concrete INIT_FAILED device. -/
theorem C3_witness :
    (virtio_rnd_k_set_status ex_rnd_init_failed exKEnv 4).1 =
      ex_rnd_init_failed ∧
    virtio_rnd_reset ex_rnd_init_failed = ex_rnd_init_failed ∧
    virtio_rnd_deinit (some ex_rnd_init_failed) =
      some { stop_called := false, reset_called := false, close_count := 0,
             freed := true,
             final_status := some ex_rnd_init_failed.vbs_k_status } :=
  C3_status_path.2.2.2.2 ex_rnd_init_failed exKEnv 4 (Or.inl rfl)

/-- The per-queue loop succeeds when every walked index is below the
registered queue count. -/
lemma k_vq_loop_all_ok (env : KEnv) (vqc : vq_config) :
    ∀ (idxs : List Nat) (vqs : vbs_vqs_info), (∀ i ∈ idxs, i < env.nvq) →
      (k_vq_loop env vqc vqs idxs).2 = true := by
  intro idxs
  induction idxs with
  | nil => intro vqs _; rfl
  | cons i rest ih =>
      intro vqs hall
      have hni : ¬ env.nvq ≤ i := not_le.mpr (hall i (List.mem_cons_self i rest))
      simp only [k_vq_loop, virtio_rnd_kernel_vq_set, hni, ite_false, if_neg,
        not_false_iff, VIRTIO_SUCCESS]
      norm_num
      exact ih _ fun j hj => hall j (List.mem_cons_of_mem _ hj)

/-- The per-queue loop reports failure as soon as it meets an index not
below the registered queue count, exactly the `virtio_rnd_kernel_vq_set`
invalid-index condition. -/
lemma k_vq_loop_fail (env : KEnv) (vqc : vq_config) :
    ∀ (idxs : List Nat) (vqs : vbs_vqs_info), (∃ i ∈ idxs, env.nvq ≤ i) →
      (k_vq_loop env vqc vqs idxs).2 = false := by
  intro idxs
  induction idxs with
  | nil =>
      intro vqs h
      rcases h with ⟨i, hi, _⟩
      exact absurd hi (List.not_mem_nil i)
  | cons j rest ih =>
      intro vqs h
      by_cases hj : env.nvq ≤ j
      · simp [k_vq_loop, virtio_rnd_kernel_vq_set, hj, VIRTIO_ERROR_GENERAL]
      · have hrest : ∃ i ∈ rest, env.nvq ≤ i := by
          rcases h with ⟨i, hi, hge⟩
          rcases List.mem_cons.mp hi with rfl | hi2
          · exact absurd hge hj
          · exact ⟨i, hi2, hge⟩
        simp only [k_vq_loop, virtio_rnd_kernel_vq_set, hj, ite_false, if_neg,
          not_false_iff, VIRTIO_SUCCESS]
        norm_num
        exact ih _ hrest

/-- C8: on a driver-ready status write from INIT_SUCCESS, if the
per-queue record-building loop (stated for an arbitrary walked index
list) meets an invalid index — precisely an index not below the
registered queue count — the handshake aborts with start never issued
and the session still INIT_SUCCESS; if every walked index is valid,
start is issued and the session becomes STARTED on start success and
START_FAILED on start failure.  The handler itself walks indices
`0, …, nvq-1`, which are always valid, so it always reaches start and
lands in STARTED or START_FAILED according to the start outcome. -/
theorem C8_handshake (rnd : virtio_rnd) (env : KEnv) (written : Nat)
    (idxs : List Nat)
    (hs : rnd.vbs_k_status = VIRTIO_DEV_INIT_SUCCESS)
    (hok : written &&& VIRTIO_CR_STATUS_DRIVER_OK ≠ 0) :
    ((∃ i ∈ idxs, env.nvq ≤ i) →
      (virtio_rnd_k_set_status_go rnd env idxs).2 = false ∧
      (virtio_rnd_k_set_status_go rnd env idxs).1.vbs_k_status =
        VIRTIO_DEV_INIT_SUCCESS) ∧
    ((∀ i ∈ idxs, i < env.nvq) →
      (virtio_rnd_k_set_status_go rnd env idxs).2 = true ∧
      (virtio_rnd_k_set_status_go rnd env idxs).1.vbs_k_status =
        (if env.start_ok then VIRTIO_DEV_STARTED
          else VIRTIO_DEV_START_FAILED)) ∧
    virtio_rnd_k_set_status rnd env written =
      virtio_rnd_k_set_status_go rnd env (List.range env.nvq) ∧
    (virtio_rnd_k_set_status rnd env written).2 = true ∧
    (virtio_rnd_k_set_status rnd env written).1.vbs_k_status =
      (if env.start_ok then VIRTIO_DEV_STARTED
        else VIRTIO_DEV_START_FAILED) := by
  have habort : ∀ js : List Nat,
      (k_vq_loop env rnd.vq rnd.vbs_k_vqs js).2 = false →
      (virtio_rnd_k_set_status_go rnd env js).2 = false ∧
      (virtio_rnd_k_set_status_go rnd env js).1.vbs_k_status =
        rnd.vbs_k_status := by
    intro js hf
    unfold virtio_rnd_k_set_status_go
    dsimp only
    rw [if_pos hf]
    exact ⟨rfl, rfl⟩
  have hstart : ∀ js : List Nat,
      (k_vq_loop env rnd.vq rnd.vbs_k_vqs js).2 = true →
      (virtio_rnd_k_set_status_go rnd env js).2 = true ∧
      (virtio_rnd_k_set_status_go rnd env js).1.vbs_k_status =
        (if env.start_ok then VIRTIO_DEV_STARTED
          else VIRTIO_DEV_START_FAILED) := by
    intro js ht
    unfold virtio_rnd_k_set_status_go
    dsimp only
    rw [if_neg (by rw [ht]; simp)]
    by_cases hso : env.start_ok <;> simp [hso]
  have hksp : virtio_rnd_k_set_status rnd env written =
      virtio_rnd_k_set_status_go rnd env (List.range env.nvq) := by
    unfold virtio_rnd_k_set_status
    rw [if_pos ⟨hs, hok⟩]
  have hrange : ∀ i ∈ List.range env.nvq, i < env.nvq :=
    fun i hi => List.mem_range.mp hi
  refine ⟨?_, ?_, hksp, ?_, ?_⟩
  · intro hex
    have h := habort idxs (k_vq_loop_fail env rnd.vq idxs rnd.vbs_k_vqs hex)
    exact ⟨h.1, h.2.trans hs⟩
  · intro hall
    exact hstart idxs (k_vq_loop_all_ok env rnd.vq idxs rnd.vbs_k_vqs hall)
  · rw [hksp]
    exact (hstart _ (k_vq_loop_all_ok env rnd.vq _ rnd.vbs_k_vqs hrange)).1
  · rw [hksp]
    exact (hstart _ (k_vq_loop_all_ok env rnd.vq _ rnd.vbs_k_vqs hrange)).2

/-- C8 (witness): the handshake on a concrete INIT_SUCCESS device with
one registered queue: the real index walk issues start and lands in
STARTED; a walk over the invalid index 3 aborts with the session still
INIT_SUCCESS and start never issued. -/
theorem C8_witness :
    (virtio_rnd_k_set_status ex_rnd_init_success exKEnv 4).2 = true ∧
    (virtio_rnd_k_set_status ex_rnd_init_success exKEnv 4).1.vbs_k_status =
      (if exKEnv.start_ok then VIRTIO_DEV_STARTED
        else VIRTIO_DEV_START_FAILED) ∧
    (virtio_rnd_k_set_status_go ex_rnd_init_success exKEnv [3]).2 = false ∧
    (virtio_rnd_k_set_status_go ex_rnd_init_success exKEnv [3]).1.vbs_k_status =
      VIRTIO_DEV_INIT_SUCCESS :=
  ⟨(C8_handshake ex_rnd_init_success exKEnv 4 (List.range exKEnv.nvq) rfl
      (by decide)).2.2.2.1,
   (C8_handshake ex_rnd_init_success exKEnv 4 (List.range exKEnv.nvq) rfl
      (by decide)).2.2.2.2,
   ((C8_handshake ex_rnd_init_success exKEnv 4 [3] rfl (by decide)).1
      ⟨3, by decide, by decide⟩).1,
   ((C8_handshake ex_rnd_init_success exKEnv 4 [3] rfl (by decide)).1
      ⟨3, by decide, by decide⟩).2⟩

end VirtioRnd
